import Mathlib

/-!
Shallow embedding of the bird-monitoring dashboard script
(`22Junestreamlit.py`) and verification of its specification claims.

Rows of the in-memory table are modelled as a Lean structure; pandas
DataFrames become `List Row`; boolean-mask selections become `List.filter`;
NaN/NaT-able columns become `Option` fields (pandas comparisons and `isin`
on NaN/NaT yield `False`, modelled by the `none` branches).
-/

/-- Calendar date, as produced by `pd.to_datetime`.  Month is `Fin 12`
(0 = January).  Comparison of timestamps is lexicographic on
(year, month, day), which agrees with chronological order for valid dates. -/
structure Date where
  y : Int
  m : Fin 12
  d : Nat
deriving DecidableEq

/-- Timestamp order used by the masks `fdf["Date"] >= ...` and `<= ...`. -/
def dateLe (a b : Date) : Bool :=
  decide (a.y < b.y) ||
    (decide (a.y = b.y) &&
      (decide (a.m.val < b.m.val) || (decide (a.m = b.m) && decide (a.d ≤ b.d))))

/-- The twelve month abbreviations produced by `strftime("%b")`,
also the reindex labels of the heatmap pivot. -/
def month_names : List String :=
  ["Jan", "Feb", "Mar", "Apr", "May", "Jun",
   "Jul", "Aug", "Sep", "Oct", "Nov", "Dec"]

/-- `strftime("%b")` for a parsed date's month. -/
def monthAbbrev (m : Fin 12) : String :=
  month_names.get ⟨m.val, m.isLt⟩

/-- One row of the loaded table: the 14 selected columns of
`bird_monitoring` plus the derived `Year` and `Month` columns.
Columns on which the script calls `dropna`, compares, or groups while
nulls are possible are `Option`-typed (`none` = NaN/NaT). -/
structure Row where
  plotName : Option String
  date : Option Date
  observer : Option String
  commonName : Option String
  scientificName : String
  distance : String
  sex : String
  temperature : Option Int
  humidity : Int
  sky : String
  wind : String
  startTime : String
  endTime : String
  pifWatchlistStatus : Int
  year : Option Int
  month : Option String
deriving DecidableEq

/-- One raw row as it comes out of the SQL query, before `load_data`
normalises the date: `Date` is still an unparsed string. -/
structure RawRow where
  plotName : Option String
  dateRaw : String
  observer : Option String
  commonName : Option String
  scientificName : String
  distance : String
  sex : String
  temperature : Option Int
  humidity : Int
  sky : String
  wind : String
  startTime : String
  endTime : String
  pifWatchlistStatus : Int
deriving DecidableEq

/-- Per-row body of `load_data`: `pd.to_datetime(..., errors="coerce")` is the
external pandas parser, modelled as an arbitrary `parse : String → Option Date`
(`none` = NaT); `Year`/`Month` are derived from the parse result
(`.dt.year` and `.strftime` of NaT are NaN, i.e. `none`). -/
def mkRow (parse : String → Option Date) (w : RawRow) : Row :=
  { plotName := w.plotName
    date := parse w.dateRaw
    observer := w.observer
    commonName := w.commonName
    scientificName := w.scientificName
    distance := w.distance
    sex := w.sex
    temperature := w.temperature
    humidity := w.humidity
    sky := w.sky
    wind := w.wind
    startTime := w.startTime
    endTime := w.endTime
    pifWatchlistStatus := w.pifWatchlistStatus
    year := (parse w.dateRaw).map Date.y
    month := (parse w.dateRaw).map (fun d => monthAbbrev d.m) }

/-- `load_data` after the query returned `raws`: normalise the date column and
derive `Year`/`Month`.  Total: a parse failure yields `none` fields in that
row, never an error for the load. -/
def load_data (parse : String → Option Date) (raws : List RawRow) : List Row :=
  raws.map (mkRow parse)

/-- `apply_filters` (lines 44-58): sequential boolean-mask filters, each
guarded by Python truthiness of the selection (`if observers:` skips the mask
for an empty list); the date mask requires `isinstance(date_range, list) and
len(date_range) == 2`.  `isin` on a NaN cell and `>=`/`<=` on NaT are `False`
(the `none => false` branches).  `df.copy()` and `reset_index(drop=True)` are
identities in the list model. -/
def apply_filters (df : List Row) (observers plots species : List String)
    (dateRange : List Date) : List Row :=
  let fdf := df
  let fdf := if observers.isEmpty then fdf else
    fdf.filter (fun r => match r.observer with
      | some v => observers.contains v
      | none => false)
  let fdf := if plots.isEmpty then fdf else
    fdf.filter (fun r => match r.plotName with
      | some v => plots.contains v
      | none => false)
  let fdf := if species.isEmpty then fdf else
    fdf.filter (fun r => match r.commonName with
      | some v => species.contains v
      | none => false)
  let fdf := match dateRange with
    | [d1, d2] => fdf.filter (fun r => match r.date with
        | some d => dateLe d1 d && dateLe d d2
        | none => false)
    | _ => fdf
  fdf

/-- `apply_filters` with the observer mask statement deleted. -/
def apply_filters_no_observers (df : List Row) (plots species : List String)
    (dateRange : List Date) : List Row :=
  let fdf := df
  let fdf := if plots.isEmpty then fdf else
    fdf.filter (fun r => match r.plotName with
      | some v => plots.contains v
      | none => false)
  let fdf := if species.isEmpty then fdf else
    fdf.filter (fun r => match r.commonName with
      | some v => species.contains v
      | none => false)
  let fdf := match dateRange with
    | [d1, d2] => fdf.filter (fun r => match r.date with
        | some d => dateLe d1 d && dateLe d d2
        | none => false)
    | _ => fdf
  fdf

/-- `apply_filters` with the plot mask statement deleted. -/
def apply_filters_no_plots (df : List Row) (observers species : List String)
    (dateRange : List Date) : List Row :=
  let fdf := df
  let fdf := if observers.isEmpty then fdf else
    fdf.filter (fun r => match r.observer with
      | some v => observers.contains v
      | none => false)
  let fdf := if species.isEmpty then fdf else
    fdf.filter (fun r => match r.commonName with
      | some v => species.contains v
      | none => false)
  let fdf := match dateRange with
    | [d1, d2] => fdf.filter (fun r => match r.date with
        | some d => dateLe d1 d && dateLe d d2
        | none => false)
    | _ => fdf
  fdf

/-- `apply_filters` with the species mask statement deleted. -/
def apply_filters_no_species (df : List Row) (observers plots : List String)
    (dateRange : List Date) : List Row :=
  let fdf := df
  let fdf := if observers.isEmpty then fdf else
    fdf.filter (fun r => match r.observer with
      | some v => observers.contains v
      | none => false)
  let fdf := if plots.isEmpty then fdf else
    fdf.filter (fun r => match r.plotName with
      | some v => plots.contains v
      | none => false)
  let fdf := match dateRange with
    | [d1, d2] => fdf.filter (fun r => match r.date with
        | some d => dateLe d1 d && dateLe d d2
        | none => false)
    | _ => fdf
  fdf

/-- `apply_filters` with the date mask statement deleted. -/
def apply_filters_no_date (df : List Row) (observers plots species : List String) :
    List Row :=
  let fdf := df
  let fdf := if observers.isEmpty then fdf else
    fdf.filter (fun r => match r.observer with
      | some v => observers.contains v
      | none => false)
  let fdf := if plots.isEmpty then fdf else
    fdf.filter (fun r => match r.plotName with
      | some v => plots.contains v
      | none => false)
  let fdf := if species.isEmpty then fdf else
    fdf.filter (fun r => match r.commonName with
      | some v => species.contains v
      | none => false)
  fdf

/-- Row predicate of the observer mask, with the emptiness guard folded in. -/
def obs_keep (observers : List String) (r : Row) : Bool :=
  observers.isEmpty || (match r.observer with
    | some v => observers.contains v
    | none => false)

/-- Row predicate of the plot mask, with the emptiness guard folded in. -/
def plot_keep (plots : List String) (r : Row) : Bool :=
  plots.isEmpty || (match r.plotName with
    | some v => plots.contains v
    | none => false)

/-- Row predicate of the species mask, with the emptiness guard folded in. -/
def species_keep (species : List String) (r : Row) : Bool :=
  species.isEmpty || (match r.commonName with
    | some v => species.contains v
    | none => false)

/-- Row predicate of the date mask: a two-element list keeps dates between the
endpoints inclusive (NaT excluded); any other shape keeps everything. -/
def date_keep (dateRange : List Date) (r : Row) : Bool :=
  match dateRange with
  | [d1, d2] => match r.date with
      | some d => dateLe d1 d && dateLe d d2
      | none => false
  | _ => true

/-- Conjunction of the four masks: the row-level semantics of `apply_filters`. -/
def row_keep (observers plots species : List String) (dateRange : List Date)
    (r : Row) : Bool :=
  obs_keep observers r && plot_keep plots r && species_keep species r &&
    date_keep dateRange r

/-- Environment of the `apply_filters` body: the incoming frame `df` and the
local `fdf`.  Every statement of the body is a rebinding of `fdf`; this
state-passing form makes "the source frame is never written" provable rather
than implicit. -/
structure FilterEnv where
  df : List Row
  fdf : List Row
deriving DecidableEq

/-- Statement-by-statement state-passing form of `apply_filters`:
`fdf = df.copy()` starts the local frame as a copy, and each mask rebinds
`fdf` only, leaving the `df` component untouched. -/
def apply_filters_prog (df0 : List Row) (observers plots species : List String)
    (dateRange : List Date) : FilterEnv :=
  let env : FilterEnv := ⟨df0, df0⟩
  let env : FilterEnv := if observers.isEmpty then env else
    ⟨env.df, env.fdf.filter (fun r => match r.observer with
      | some v => observers.contains v
      | none => false)⟩
  let env : FilterEnv := if plots.isEmpty then env else
    ⟨env.df, env.fdf.filter (fun r => match r.plotName with
      | some v => plots.contains v
      | none => false)⟩
  let env : FilterEnv := if species.isEmpty then env else
    ⟨env.df, env.fdf.filter (fun r => match r.commonName with
      | some v => species.contains v
      | none => false)⟩
  let env : FilterEnv := match dateRange with
    | [d1, d2] => ⟨env.df, env.fdf.filter (fun r => match r.date with
        | some d => dateLe d1 d && dateLe d d2
        | none => false)⟩
    | _ => env
  env

/-- First occurrence of each value, in encounter order: pandas `unique` /
the index set of `value_counts`. -/
def firstUniques {α : Type} [DecidableEq α] (l : List α) : List α :=
  l.foldl (fun acc x => if x ∈ acc then acc else acc ++ [x]) []

/-- Descending-count order on (value, count) pairs: the order of the
`value_counts` result. -/
def countGE (a b : String × Nat) : Prop := b.2 ≤ a.2

instance : DecidableRel countGE := fun a b => Nat.decLe b.2 a.2

instance : IsTotal (String × Nat) countGE := ⟨fun a b => Nat.le_total b.2 a.2⟩

instance : IsTrans (String × Nat) countGE := ⟨fun _ _ _ h1 h2 => Nat.le_trans h2 h1⟩

/-- `Series.value_counts()`: occurrence counts of the non-null values, sorted
by count descending.  NaN values are dropped by the caller (`filterMap`); tie
order among equal counts is implementation-defined in pandas but deterministic,
modelled here as first-appearance order under a stable insertion sort. -/
def value_counts (xs : List String) : List (String × Nat) :=
  List.insertionSort countGE ((firstUniques xs).map (fun x => (x, xs.countP (fun y => decide (y = x)))))

/-- `pie_data` (lines 86-92): `value_counts().nlargest(10)` with the
reset/rename bookkeeping dropped (it only names columns).  `nlargest` with the
default `keep="first"` on an already descending-sorted series is `take 10`. -/
def pie_data (filtered : List Row) : List (String × Nat) :=
  (value_counts (filtered.filterMap Row.commonName)).take 10

/-- `bar_df` (lines 130-136): `value_counts().nlargest(15)`, columns renamed to
`Common_Name`/`Count`. -/
def bar_df (filtered : List Row) : List (String × Nat) :=
  (value_counts (filtered.filterMap Row.commonName)).take 15

/-- The (Year, Month) key pairs of `filtered_df.groupby(["Year", "Month"])`:
groupby drops rows whose key contains NaN. -/
def ym_pairs (rows : List Row) : List (Int × String) :=
  rows.filterMap (fun r => match r.year, r.month with
    | some y, some m => some (y, m)
    | _, _ => none)

/-- Months that occur in the grouped data: the index of the pivot before
reindexing. -/
def months_present (rows : List Row) : List String :=
  firstUniques ((ym_pairs rows).map Prod.snd)

/-- Years that occur in the grouped data: the columns of the pivot. -/
def years_present (rows : List Row) : List Int :=
  firstUniques ((ym_pairs rows).map Prod.fst)

/-- Size of one (Year, Month) group of the heatmap groupby. -/
def ym_count (rows : List Row) (y : Int) (m : String) : Nat :=
  (ym_pairs rows).countP (fun p => decide (p = (y, m)))

/-- One cell of `pivot(...).fillna(0).reindex(month_names)` (lines 186-188):
`fillna(0)` runs before `reindex`, so a month present somewhere in the data has
a numeric count in every year column (0 where the combination is absent), while
a month absent from the data is reindexed in as a row of NaN (`none`). -/
def pivot_cell (rows : List Row) (m : String) (y : Int) : Option Nat :=
  if m ∈ months_present rows then some (ym_count rows y m) else none

/-- The reindexed heatmap pivot: one row per month label Jan..Dec, one column
per year present in the data. -/
def pivot (rows : List Row) : List (String × List (Option Nat)) :=
  month_names.map (fun m => (m, (years_present rows).map (pivot_cell rows m)))

/-- The 14 columns selected by the SQL query, in query order. -/
def source_columns : List String :=
  ["Plot_Name", "Date", "Observer", "Common_Name", "Scientific_Name",
   "Distance", "Sex", "Temperature", "Humidity", "Sky", "Wind",
   "Start_Time", "End_Time", "PIF_Watchlist_Status"]

/-- CSV cell for a nullable string column (NaN prints as empty). -/
def optStr : Option String → String
  | some s => s
  | none => ""

/-- CSV cell for a nullable integer column. -/
def optIntStr : Option Int → String
  | some n => toString n
  | none => ""

/-- CSV cell for the normalised date column (NaT prints as empty). -/
def dateStr : Option Date → String
  | some d => toString d.y ++ "-" ++ toString (d.m.val + 1) ++ "-" ++ toString d.d
  | none => ""

/-- One CSV data line of `filtered_df.to_csv(index=False)`, one cell per
column in frame order. -/
def row_to_csv (r : Row) : List String :=
  [optStr r.plotName, dateStr r.date, optStr r.observer, optStr r.commonName,
   r.scientificName, r.distance, r.sex, optIntStr r.temperature,
   toString r.humidity, r.sky, r.wind, r.startTime, r.endTime,
   toString r.pifWatchlistStatus, optIntStr r.year, optStr r.month]

/-- `filtered_df.to_csv(index=False)` (line 200): the header line (the frame's
columns, `index=False` drops the index column) and one data line per row. -/
def to_csv (rows : List Row) : List String × List (List String) :=
  (source_columns ++ ["Year", "Month"], rows.map row_to_csv)

/-- The rows surviving `filtered_df[["Temperature", "Common_Name"]].dropna()`:
both projected cells non-null. -/
def temp_pairs (filtered : List Row) : List (Int × String) :=
  filtered.filterMap (fun r => match r.temperature, r.commonName with
    | some t, some c => some (t, c)
    | _, _ => none)

/-- The sample size the script requests on line 141:
`n=min(1000, len(filtered_df))` — the length of the frame BEFORE `dropna`. -/
def temp_sample_request (filtered : List Row) : Nat :=
  min 1000 filtered.length

/-- `DataFrame.sample(n=...)` (without replacement): fails whenever the
requested size exceeds the population.  Which rows are drawn is random and
abstracted to a prefix; only the success condition and the bound matter here. -/
def sampleExact {α : Type} (n : Nat) (xs : List α) : Except String (List α) :=
  if n ≤ xs.length then Except.ok (xs.take n) else
    Except.error "Cannot take a larger sample than population"

/-- `temp_df` (line 141): dropna on the two projected columns, then sample
`min(1000, len(filtered_df))` rows of the dropped frame. -/
def temp_df (filtered : List Row) : Except String (List (Int × String)) :=
  sampleExact (temp_sample_request filtered) (temp_pairs filtered)

/-- The rows the watch-list summary counts over (line 165):
`PIF_Watchlist_Status != 0`. -/
def risk_rows (filtered : List Row) : List Row :=
  filtered.filter (fun r => decide (r.pifWatchlistStatus ≠ 0))

/-- `risk_summary` (lines 164-169): `value_counts` of `Common_Name` over the
nonzero-status rows, columns renamed to `Common_Name`/`Count`. -/
def risk_summary (filtered : List Row) : List (String × Nat) :=
  value_counts ((risk_rows filtered).filterMap Row.commonName)

/-- The watch-list section (lines 160-173): the chart is rendered
(`some summary`) when `risk_df = filtered[status > 0]` is non-empty, otherwise
the "No at-risk species" message (`none`) is shown — while the rendered counts
are taken over the `status != 0` rows. -/
def risk_display (filtered : List Row) : Option (List (String × Nat)) :=
  let risk_df := filtered.filter (fun r => decide (0 < r.pifWatchlistStatus))
  if risk_df.isEmpty then none
  else some (risk_summary filtered)

/-- A concrete January 2020 date for test data. -/
def sampleDate : Date := ⟨2020, 0, 15⟩

/-- A concrete fully-populated row (January 2020, plot A, a Robin). -/
def baseRow : Row :=
  { plotName := some "A"
    date := some sampleDate
    observer := some "Obs1"
    commonName := some "Robin"
    scientificName := "Turdus migratorius"
    distance := "0-25m"
    sex := "M"
    temperature := some 20
    humidity := 50
    sky := "Clear"
    wind := "Calm"
    startTime := "06:00"
    endTime := "06:10"
    pifWatchlistStatus := 0
    year := some 2020
    month := some "Jan" }

/-- A one-row filtered set whose only observation is in January 2020. -/
def janOnly : List Row := [baseRow]

/-- `baseRow` with a NULL temperature cell. -/
def rowNoTemp : Row :=
  { baseRow with temperature := none }

/-- A two-row filtered set, one row with NULL temperature: after `dropna` only
one row remains but `len(filtered_df)` is still 2. -/
def badFiltered : List Row := [baseRow, rowNoTemp]

/-- A row whose watch-list status is negative (nonzero but not positive). -/
def negRow : Row :=
  { baseRow with pifWatchlistStatus := -1, commonName := some "NegBird" }

/-- A row whose watch-list status is positive. -/
def posRow : Row :=
  { baseRow with pifWatchlistStatus := 1, commonName := some "PosBird" }

/-- A filtered set whose only watch-list-flagged record has negative status. -/
def negOnlySet : List Row := [negRow]

/-- A filtered set with one positive-status and one negative-status record. -/
def mixedSet : List Row := [posRow, negRow]

/-- A concrete raw row whose date string the parser will reject. -/
def sampleRaw : RawRow :=
  { plotName := some "A"
    dateRaw := "not-a-date"
    observer := some "Obs1"
    commonName := some "Robin"
    scientificName := "Turdus migratorius"
    distance := "0-25m"
    sex := "M"
    temperature := some 20
    humidity := 50
    sky := "Clear"
    wind := "Calm"
    startTime := "06:00"
    endTime := "06:10"
    pifWatchlistStatus := 0 }

/-- A parser that rejects every date string. -/
def parseNone : String → Option Date := fun _ => none

theorem stage_if_filter (df : List Row) (l : List String) (q : Row → Bool) :
    (if l.isEmpty then df else df.filter q) =
      df.filter (fun r => l.isEmpty || q r) := by
  cases l with
  | nil => simp
  | cons a t => simp

theorem stage_date_filter (df : List Row) (dateRange : List Date) :
    (match dateRange with
      | [d1, d2] => df.filter (fun r => match r.date with
          | some d => dateLe d1 d && dateLe d d2
          | none => false)
      | _ => df) = df.filter (date_keep dateRange) := by
  match dateRange with
  | [] => exact (List.filter_eq_self.mpr fun a _ => rfl).symm
  | [a] => exact (List.filter_eq_self.mpr fun a _ => rfl).symm
  | [a, b] => rfl
  | a :: b :: c :: t => exact (List.filter_eq_self.mpr fun a _ => rfl).symm

theorem apply_filters_eq_filter (df : List Row) (observers plots species : List String)
    (dateRange : List Date) :
    apply_filters df observers plots species dateRange =
      df.filter (row_keep observers plots species dateRange) := by
  unfold apply_filters
  dsimp only
  rw [stage_if_filter, stage_if_filter, stage_if_filter, stage_date_filter,
    List.filter_filter, List.filter_filter, List.filter_filter]
  apply List.filter_congr
  intro r _
  show (((date_keep dateRange r && species_keep species r) && plot_keep plots r) &&
      obs_keep observers r) =
    row_keep observers plots species dateRange r
  unfold row_keep
  cases obs_keep observers r <;> cases plot_keep plots r <;>
    cases species_keep species r <;> cases date_keep dateRange r <;> rfl

theorem filter_self_idem (p : Row → Bool) (l : List Row) :
    (l.filter p).filter p = l.filter p := by
  rw [List.filter_filter]
  apply List.filter_congr
  intro a _
  cases p a <;> rfl

/-- C1: for every loaded record set and every combination of filter inputs,
the result of `apply_filters` is a subset of the loaded set (indeed a sublist:
every output row is a row of the input), and applying `apply_filters` a second
time with the same selections to its own output returns it unchanged. -/
theorem c1_filter_subset_idempotent (df : List Row)
    (observers plots species : List String) (dateRange : List Date) :
    (apply_filters df observers plots species dateRange).Sublist df ∧
    apply_filters df observers plots species dateRange ⊆ df ∧
    apply_filters (apply_filters df observers plots species dateRange)
        observers plots species dateRange =
      apply_filters df observers plots species dateRange := by
  have h := apply_filters_eq_filter df observers plots species dateRange
  refine ⟨?_, ?_, ?_⟩
  · rw [h]; exact List.filter_sublist df
  · rw [h]; exact (List.filter_sublist df).subset
  · rw [h, apply_filters_eq_filter]
    exact filter_self_idem _ _

/-- C2: an empty selection list on a dimension places no restriction on that
dimension: the output of `apply_filters` with the empty list equals the output
of the variant with that dimension's mask statement deleted. -/
theorem c2_empty_selection_no_op (df : List Row)
    (observers plots species : List String) (dateRange : List Date) :
    apply_filters df [] plots species dateRange =
      apply_filters_no_observers df plots species dateRange ∧
    apply_filters df observers [] species dateRange =
      apply_filters_no_plots df observers species dateRange ∧
    apply_filters df observers plots [] dateRange =
      apply_filters_no_species df observers plots dateRange :=
  ⟨rfl, rfl, rfl⟩

/-- C3: a date-range value with other than exactly two endpoints (in
particular a one-element list) is silently ignored — the output is identical
to the variant with no date mask; with exactly two endpoints, exactly the rows
whose `Date` lies between the endpoints inclusive are kept. -/
theorem c3_date_range_shape (df : List Row)
    (observers plots species : List String) (dateRange : List Date)
    (h : dateRange.length ≠ 2) (d1 d2 : Date) :
    apply_filters df observers plots species dateRange =
      apply_filters_no_date df observers plots species ∧
    apply_filters df observers plots species [d1, d2] =
      (apply_filters_no_date df observers plots species).filter
        (fun r => match r.date with
          | some d => dateLe d1 d && dateLe d d2
          | none => false) := by
  refine ⟨?_, rfl⟩
  match dateRange, h with
  | [], _ => rfl
  | [a], _ => rfl
  | [a, b], h => exact absurd rfl h
  | a :: b :: c :: t, _ => rfl

/-- Witness for C3 at a concrete input: a singleton date range on a one-row
table is ignored. -/
theorem c3_date_range_shape_witness :
    ([sampleDate].length ≠ 2) ∧
    apply_filters [baseRow] [] [] [] [sampleDate] =
      apply_filters_no_date [baseRow] [] [] [] :=
  ⟨by decide,
    (c3_date_range_shape [baseRow] [] [] [] [sampleDate] (by decide)
      sampleDate sampleDate).1⟩

/-- C8: `apply_filters` never mutates the loaded set: in the
statement-by-statement state-passing form of its body, the incoming frame is
identical before and after, and the local frame is the derived filtered
subset. -/
theorem c8_no_mutation (df0 : List Row)
    (observers plots species : List String) (dateRange : List Date) :
    (apply_filters_prog df0 observers plots species dateRange).df = df0 ∧
    (apply_filters_prog df0 observers plots species dateRange).fdf =
      apply_filters df0 observers plots species dateRange := by
  rcases dateRange with _ | ⟨a, _ | ⟨b, _ | ⟨c, t⟩⟩⟩ <;>
    cases observers <;> cases plots <;> cases species <;> exact ⟨rfl, rfl⟩

/-- C9: `load_data` never fails on an unparsable date value: every raw row
loads (the output has one row per input row, and each raw row's image is in
the output); the date column is exactly the parse result, so a rejected date
string yields `none` in `Date` and hence `none` in the derived `Year` and
`Month`, while every other column of the row is carried over unchanged. -/
theorem c9_load_total (parse : String → Option Date) (raws : List RawRow)
    (w : RawRow) (hw : w ∈ raws) :
    (load_data parse raws).length = raws.length ∧
    mkRow parse w ∈ load_data parse raws ∧
    (mkRow parse w).date = parse w.dateRaw ∧
    (mkRow parse w).year = (parse w.dateRaw).map Date.y ∧
    (mkRow parse w).month = (parse w.dateRaw).map (fun d => monthAbbrev d.m) ∧
    (mkRow parse w).plotName = w.plotName ∧
    (mkRow parse w).observer = w.observer ∧
    (mkRow parse w).commonName = w.commonName ∧
    (mkRow parse w).scientificName = w.scientificName ∧
    (mkRow parse w).distance = w.distance ∧
    (mkRow parse w).sex = w.sex ∧
    (mkRow parse w).temperature = w.temperature ∧
    (mkRow parse w).humidity = w.humidity ∧
    (mkRow parse w).sky = w.sky ∧
    (mkRow parse w).wind = w.wind ∧
    (mkRow parse w).startTime = w.startTime ∧
    (mkRow parse w).endTime = w.endTime ∧
    (mkRow parse w).pifWatchlistStatus = w.pifWatchlistStatus :=
  ⟨by simp [load_data], List.mem_map_of_mem _ hw, rfl, rfl, rfl, rfl, rfl, rfl,
    rfl, rfl, rfl, rfl, rfl, rfl, rfl, rfl, rfl, rfl⟩

/-- Witness for C9 at a concrete input: under a parser that rejects the date
string, the row still loads and carries null date/year/month markers. -/
theorem c9_load_total_witness :
    sampleRaw ∈ [sampleRaw] ∧
    (load_data parseNone [sampleRaw]).length = 1 ∧
    (mkRow parseNone sampleRaw).date = none ∧
    (mkRow parseNone sampleRaw).year = none ∧
    (mkRow parseNone sampleRaw).month = none :=
  ⟨by decide,
    (c9_load_total parseNone [sampleRaw] sampleRaw (by decide)).1,
    (c9_load_total parseNone [sampleRaw] sampleRaw (by decide)).2.2.1,
    (c9_load_total parseNone [sampleRaw] sampleRaw (by decide)).2.2.2.1,
    (c9_load_total parseNone [sampleRaw] sampleRaw (by decide)).2.2.2.2.1⟩

/-- C10: the watch-list chart is rendered iff some record has strictly
positive `PIF_Watchlist_Status`, while the rendered counts are taken over the
records with status not equal to 0.  Consequently on `negOnlySet`, whose only
flagged record has status -1, the "no at-risk species" message is shown
(`none`) even though the nonzero-status subset is non-empty; and on
`mixedSet` the negative-status species is counted alongside the positive one. -/
theorem c10_watchlist_gate (filtered : List Row) :
    ((risk_display filtered).isSome =
      filtered.any (fun r => decide (0 < r.pifWatchlistStatus))) ∧
    risk_display negOnlySet = none ∧
    risk_rows negOnlySet ≠ [] ∧
    risk_display mixedSet = some [("PosBird", 1), ("NegBird", 1)] := by
  refine ⟨?_, by decide, by decide, by decide⟩
  cases hany : filtered.any (fun r => decide (0 < r.pifWatchlistStatus)) with
  | false =>
    have hnil : filtered.filter (fun r => decide (0 < r.pifWatchlistStatus)) = [] := by
      rw [List.filter_eq_nil_iff]
      intro a ha
      have h2 := (List.any_eq_false.mp hany) a ha
      simpa using h2
    unfold risk_display
    dsimp only
    rw [hnil]
    rfl
  | true =>
    obtain ⟨a, ha, hpa⟩ := List.any_eq_true.mp hany
    have hmem : a ∈ filtered.filter (fun r => decide (0 < r.pifWatchlistStatus)) :=
      List.mem_filter.mpr ⟨ha, hpa⟩
    have hie : (filtered.filter (fun r => decide (0 < r.pifWatchlistStatus))).isEmpty = false :=
      List.isEmpty_eq_false.mpr (List.ne_nil_of_mem hmem)
    unfold risk_display
    dsimp only
    rw [hie]
    rfl

theorem value_counts_sorted (xs : List String) :
    List.Sorted countGE (value_counts xs) :=
  List.sorted_insertionSort countGE _

/-- C4: the top-N species aggregates return at most N groups (N = 10 for the
pie data, N = 15 for the bar data), ordered by descending count, and repeated
evaluation on identical input yields the identical result (the model is a
pure function, so determinism is definitional; pandas tie order is
implementation-defined but likewise fixed for a given input). -/
theorem c4_top_n_aggregates (filtered : List Row) :
    (pie_data filtered).length ≤ 10 ∧
    List.Sorted countGE (pie_data filtered) ∧
    pie_data filtered = pie_data filtered ∧
    (bar_df filtered).length ≤ 15 ∧
    List.Sorted countGE (bar_df filtered) ∧
    bar_df filtered = bar_df filtered := by
  refine ⟨?_, ?_, rfl, ?_, ?_, rfl⟩
  · rw [pie_data, List.length_take]; exact min_le_left _ _
  · exact List.Pairwise.sublist (List.take_sublist _ _) (value_counts_sorted _)
  · rw [bar_df, List.length_take]; exact min_le_left _ _
  · exact List.Pairwise.sublist (List.take_sublist _ _) (value_counts_sorted _)

/-- Counterexample to C5 as stated: in a one-row data set whose only
observation is in January 2020, the year 2020 is a pivot column and the
(February, 2020) combination has no observations, yet its pivot cell is `none`
(NaN) rather than zero, because `fillna(0)` runs before `reindex` adds the
missing month rows. -/
theorem c5_counterexample :
    janOnly ≠ [] ∧
    (2020 : Int) ∈ years_present janOnly ∧
    ym_count janOnly 2020 "Feb" = 0 ∧
    pivot_cell janOnly "Feb" 2020 ≠ some 0 := by decide

/-- C5 (amended): for every non-empty filtered set the year-month pivot has
exactly 12 rows (Jan through Dec) regardless of which months occur; a
year-month combination with no observations is zero-filled when its month has
at least one observation in some year, while a month with no observations in
any year appears as a row of missing (NaN) cells, not zeros. -/
theorem c5_pivot_shape (rows : List Row) (_h : rows ≠ []) :
    (pivot rows).length = 12 ∧
    (∀ m y, m ∈ months_present rows → (y, m) ∉ ym_pairs rows →
      pivot_cell rows m y = some 0) ∧
    (∀ m y, m ∉ months_present rows → pivot_cell rows m y = none) := by
  refine ⟨by simp [pivot, month_names], ?_, ?_⟩
  · intro m y hm habs
    unfold pivot_cell
    rw [if_pos hm]
    have hz : ym_count rows y m = 0 := by
      unfold ym_count
      rw [List.countP_eq_zero]
      intro p hp
      simp only [decide_eq_true_eq]
      intro hpe
      exact habs (hpe ▸ hp)
    rw [hz]
  · intro m y hm
    unfold pivot_cell
    rw [if_neg hm]

/-- Witness for C5 at a concrete input: the one-row January set is non-empty
and its pivot has the full 12 month rows. -/
theorem c5_pivot_shape_witness :
    janOnly ≠ [] ∧ (pivot janOnly).length = 12 :=
  ⟨by decide, (c5_pivot_shape janOnly (by decide)).1⟩

/-- C6: the CSV export has exactly one data line per row of the filtered set,
and its header is the 14 source columns in query order followed by the derived
`Year` and `Month` columns. -/
theorem c6_csv_shape (rows : List Row) :
    (to_csv rows).2.length = rows.length ∧
    (to_csv rows).1 = source_columns ++ ["Year", "Month"] :=
  ⟨by simp [to_csv], rfl⟩

/-- C7 is a code bug, evaluated here: on `badFiltered` (two rows, one with a
NULL temperature) the script requests a sample of `min(1000, len(filtered_df))
= 2` rows from the `dropna`-ed frame, which holds only 1 row, so
`DataFrame.sample` raises instead of succeeding as the spec asserts. -/
theorem c7_sample_overrun :
    badFiltered ≠ [] ∧
    temp_sample_request badFiltered = 2 ∧
    (temp_pairs badFiltered).length = 1 ∧
    temp_df badFiltered =
      Except.error "Cannot take a larger sample than population" := by
  refine ⟨by decide, rfl, rfl, rfl⟩
